import Mathlib

/-!
Verification development for the state-generation subsystem
(`beacon-chain/state/stategen`), the slasher detection entry point
(`slasher/detection/detect.go`) and the hash utilities
(`shared/hashutil/hash.go`).

Shallow embedding conventions:
  * 32-byte block roots are abstracted as `Nat` (`Root`); the embedding never
    relies on their internal structure.
  * `*state.BeaconState` is modelled by its slot plus an opaque content
    identity (`BeaconState`); Go pointer copies (`state.Copy()`) are value
    copies in this pure model, except in the dedicated reference model used
    for the aliasing analysis at the end of the definitions section.
  * The persistent store (`beaconDB`) is an explicit record of association
    lists carried through each operation; `beaconDB.SaveState` and
    `beaconDB.SaveStateSummary` write outcomes are driven by boolean oracles
    in `Collab` so that StoreIO failures of the underlying store remain
    expressible, and a failed write leaves the store unchanged.
  * Collaborators that live outside the shown source (`LoadBlocks`,
    `ReplayBlocks`, `saveColdState`) are opaque functions in `Collab`;
    fallible Go calls become `Except`.
  * Go's `errors.Wrap(err, msg)` is modelled by the `GenErr.wrapped`
    constructor (the message string is dropped).
-/

/-- Block roots, abstract stand-in for `[32]byte`. -/
abbrev Root := Nat

/-- Opaque block as consumed by the replay engine (`LoadBlocks` output). -/
abbrev Blk := Nat

/-- A beacon state: its slot plus an opaque content identity standing for the
remaining serialized fields. -/
structure BeaconState where
  slot : Nat
  content : Nat
deriving DecidableEq, Repr

/-- A state summary (`pb.StateSummary`): the lightweight checkpoint pointer
`{slot, root}` persisted for every hot-region root. -/
structure Summary where
  slot : Nat
  root : Root
deriving DecidableEq, Repr

/-- Error kinds surfaced by the embedded state-generation operations. -/
inductive GenErr where
  /-- `errUnknownStateSummary`: no checkpoint pointer for the root. -/
  | unknownStateSummary : GenErr
  /-- `errUnknownBoundaryState`: no ancestor boundary snapshot found. -/
  | unknownBoundaryState : GenErr
  /-- A persistence write failed (wraps the underlying store failure). -/
  | storeFail : GenErr
  /-- `lastSavedBlock` found no saved block at or below the slot. -/
  | noLastSavedBlock : GenErr
  /-- Models a Go nil-pointer dereference panic (not an error return). -/
  | nilPointerPanic : GenErr
  /-- Models `errors.Wrap e msg` (message dropped). -/
  | wrapped : GenErr → GenErr
  /-- An opaque collaborator failure code. -/
  | collab : Nat → GenErr
deriving DecidableEq, Repr

/-- Association-list lookup keyed by `Root` (first match wins). -/
def alookup {α : Type} : List (Root × α) → Root → Option α
  | [], _ => none
  | (k2, v) :: rest, k => if k = k2 then some v else alookup rest k

/-- Association-list insert/overwrite keyed by `Root` (new binding shadows). -/
def ainsert {α : Type} (l : List (Root × α)) (k : Root) (v : α) : List (Root × α) :=
  (k, v) :: l

/-- The mutable state of the `stategen.State` service: hot state cache,
persisted full states keyed by root, persisted state summaries keyed by root,
persisted blocks (root/slot pairs) and the split slot. -/
structure StateGen where
  hotStateCache : List (Root × BeaconState)
  dbStates : List (Root × BeaconState)
  dbSummaries : List (Root × Summary)
  dbBlocks : List (Root × Nat)
  splitSlot : Nat
deriving DecidableEq, Repr

/-- Modelled from the spec: `helpers.IsEpochStart` — a slot is an
epoch-boundary slot when it is a multiple of the chain's epoch length `E`
(the function itself lives in `beacon-chain/core/helpers`, outside the shown
source). -/
def isEpochStart (E slot : Nat) : Bool :=
  slot % E == 0

/-- Modelled from the spec: `helpers.SlotToEpoch` — the epoch containing a
slot under epoch length `E`. -/
def slotToEpoch (E slot : Nat) : Nat :=
  slot / E

/-- Modelled from the spec: `helpers.StartSlot` — the first slot of an epoch
under epoch length `E`. -/
def startSlot (E epoch : Nat) : Nat :=
  epoch * E

/-- Modelled from the spec: `lastSavedState` — locate the nearest ancestor
full snapshot at or before a bound, i.e. the persisted full state with the
greatest slot not exceeding `bound`; `none` when no such snapshot exists
(the function lives in the stategen getter file, outside the shown source). -/
def lastSavedState (db : List (Root × BeaconState)) (bound : Nat) : Option BeaconState :=
  db.foldl
    (fun acc p =>
      if p.2.slot ≤ bound then
        match acc with
        | none => some p.2
        | some b => if b.slot < p.2.slot then some p.2 else some b
      else acc)
    none

/-- Modelled from the spec: `lastSavedBlock` — the nearest saved block
root/slot pair at or before `bound`; `none` when no block is saved at or
below it (the function lives outside the shown source). -/
def lastSavedBlock (db : List (Root × Nat)) (bound : Nat) : Option (Root × Nat) :=
  db.foldl
    (fun acc p =>
      if p.2 ≤ bound then
        match acc with
        | none => some p
        | some b => if b.2 < p.2 then some p else some b
      else acc)
    none

/-- Opaque collaborators of the stategen service: outcomes of the two
persistence writes, the block loader, the replay engine and the cold-region
save path. -/
structure Collab where
  saveStateOk : Root → BeaconState → Bool
  saveSummaryOk : Summary → Bool
  loadBlocks : Nat → Nat → Root → Except GenErr (List Blk)
  replayBlocks : BeaconState → List Blk → Nat → Except GenErr BeaconState
  saveColdState : StateGen → Root → BeaconState → Except GenErr Unit × StateGen

/-- Modelled from the spec: `hotStateCache.Has` — membership test on the hot
state cache (the cache lives outside the shown source). -/
def cacheHas (cache : List (Root × BeaconState)) (root : Root) : Bool :=
  (alookup cache root).isSome

/-- Insert a state into the hot state cache of a `StateGen`. -/
def putCache (s : StateGen) (root : Root) (st : BeaconState) : StateGen :=
  { s with hotStateCache := ainsert s.hotStateCache root st }

/-- Embedding of `saveHotState` (`beacon-chain/state/stategen/hot.go`):
return success untouched when the root is already cached; otherwise persist
the full state exactly on an epoch-boundary slot, persist the state summary
unconditionally, and finally insert the state into the hot state cache. -/
def saveHotState (E : Nat) (c : Collab) (s : StateGen) (blockRoot : Root)
    (st : BeaconState) : Except GenErr Unit × StateGen :=
  if cacheHas s.hotStateCache blockRoot then
    (.ok (), s)
  else if isEpochStart E st.slot && !(c.saveStateOk blockRoot st) then
    (.error .storeFail, s)
  else
    let s1 := if isEpochStart E st.slot then
        { s with dbStates := ainsert s.dbStates blockRoot st }
      else s
    let summ : Summary := ⟨st.slot, blockRoot⟩
    if !(c.saveSummaryOk summ) then
      (.error .storeFail, s1)
    else
      let s2 := { s1 with dbSummaries := ainsert s1.dbSummaries blockRoot summ }
      (.ok (), putCache s2 blockRoot st)

/-- Embedding of `loadHotStateByRoot` (`hot.go`): cache hit returns at once;
otherwise the state summary is looked up (`errUnknownStateSummary` when
absent), the nearest boundary snapshot is located
(`errUnknownBoundaryState` when absent), and the boundary snapshot is either
returned directly (equal slots) or extended by loading and replaying the
intervening blocks; the result is cached before returning.  The pair carries
the post-call `StateGen` so cache effects are observable. -/
def loadHotStateByRoot (E : Nat) (c : Collab) (s : StateGen) (blockRoot : Root) :
    Except GenErr BeaconState × StateGen :=
  match alookup s.hotStateCache blockRoot with
  | some cachedState => (.ok cachedState, s)
  | none =>
    match alookup s.dbSummaries blockRoot with
    | none => (.error .unknownStateSummary, s)
    | some summary =>
      match lastSavedState s.dbStates (startSlot E (slotToEpoch E summary.slot)) with
      | none => (.error .unknownBoundaryState, s)
      | some startState =>
        let targetSlot := summary.slot
        if targetSlot = startState.slot then
          (.ok startState, putCache s blockRoot startState)
        else
          match c.loadBlocks (startState.slot + 1) targetSlot summary.root with
          | .error e => (.error (.wrapped e), s)
          | .ok blks =>
            match c.replayBlocks startState blks targetSlot with
            | .error e => (.error (.wrapped e), s)
            | .ok hotState => (.ok hotState, putCache s blockRoot hotState)

/-- Embedding of `loadHotStateBySlot` (`hot.go`).  The source binds
`startState, err := s.lastSavedState(ctx, slot)` and never checks that
error: `err` is overwritten by the `lastSavedBlock` call on the next line,
so a failed ancestor lookup flows on as a nil `startState` whose later
`startState.Slot()` dereference is a runtime panic, modelled here as
`GenErr.nilPointerPanic`. -/
def loadHotStateBySlot (c : Collab) (s : StateGen) (slot : Nat) :
    Except GenErr BeaconState :=
  let startStateOpt := lastSavedState s.dbStates slot
  match lastSavedBlock s.dbBlocks slot with
  | none => .error (.wrapped .noLastSavedBlock)
  | some lastValid =>
    match startStateOpt with
    | none => .error .nilPointerPanic
    | some startState =>
      match c.loadBlocks (startState.slot + 1) lastValid.2 lastValid.1 with
      | .error e => .error e
      | .ok replayBlks => c.replayBlocks startState replayBlks slot

/-- Embedding of `State.SaveState` (`setter.go`): route to the cold save when
the state's slot is strictly below the split slot, and to the hot save
otherwise. -/
def SaveState (E : Nat) (c : Collab) (s : StateGen) (root : Root)
    (st : BeaconState) : Except GenErr Unit × StateGen :=
  if st.slot < s.splitSlot then
    c.saveColdState s root st
  else
    saveHotState E c s root st

/-!
Reference-level model for the aliasing analysis of `saveHotState`.

Go states are pointers into a heap.  `hotStateCache.Put` stores the pointer
it is given: the `loadHotStateByRoot` call site passes `hotState.Copy()`
with the comment that the copy is needed because the reference is also
returned to the caller, so the copying there is the caller's duty, not
`Put`'s.  `saveHotState`, by contrast, passes the caller's `state` pointer
to `Put` uncopied (`s.hotStateCache.Put(blockRoot, state)` in `hot.go`),
although its comment reads "Store the copied state in the cache".
-/

/-- Heap addresses of `*state.BeaconState` objects. -/
abbrev Addr := Nat

/-- The stategen service state at the reference level: a heap of beacon
state objects, a hot state cache holding pointers, and the persistent store
holding serialized values (serialization dereferences at write time). -/
structure RefStateGen where
  heap : List (Addr × BeaconState)
  hotStateCacheRefs : List (Root × Addr)
  dbStates : List (Root × BeaconState)
  dbSummaries : List (Root × Summary)
deriving DecidableEq, Repr

/-- Content of the cache entry for a root, read through its stored pointer. -/
def cacheDeref (m : RefStateGen) (root : Root) : Option BeaconState :=
  match alookup m.hotStateCacheRefs root with
  | none => none
  | some a => alookup m.heap a

/-- In-place mutation of the object behind a pointer (e.g. a later
state-transition applied to the caller's retained `*state.BeaconState`). -/
def heapWrite (m : RefStateGen) (a : Addr) (v : BeaconState) : RefStateGen :=
  { m with heap := ainsert m.heap a v }

/-- Embedding of `saveHotState` at the reference level: identical branch
structure to `saveHotState`, except that the caller passes a pointer and the
final cache insertion stores that pointer uncopied, exactly as the `hot.go`
call `s.hotStateCache.Put(blockRoot, state)` does.  Store writes serialize
the dereferenced value.  A dangling pointer is modelled as a panic. -/
def saveHotStateRef (E : Nat) (c : Collab) (m : RefStateGen) (blockRoot : Root)
    (stateRef : Addr) : Except GenErr Unit × RefStateGen :=
  if (alookup m.hotStateCacheRefs blockRoot).isSome then
    (.ok (), m)
  else
    match alookup m.heap stateRef with
    | none => (.error .nilPointerPanic, m)
    | some st =>
      if isEpochStart E st.slot && !(c.saveStateOk blockRoot st) then
        (.error .storeFail, m)
      else
        let m1 := if isEpochStart E st.slot then
            { m with dbStates := ainsert m.dbStates blockRoot st }
          else m
        let summ : Summary := ⟨st.slot, blockRoot⟩
        if !(c.saveSummaryOk summ) then
          (.error .storeFail, m1)
        else
          let m2 := { m1 with dbSummaries := ainsert m1.dbSummaries blockRoot summ }
          (.ok (), { m2 with hotStateCacheRefs := ainsert m2.hotStateCacheRefs blockRoot stateRef })

/-!
Embedding of `DetectAttesterSlashings` (`slasher/detection/detect.go`).
Attestations, attester slashings and protobuf hashes are opaque (`Nat`);
the min-max span detector, the two per-result detectors (they consult the
slasher database), `hashutil.HashProto` (it marshals protobufs) and the
slashing save are opaque collaborator functions.  Each `errors.Wrap` site
has its own `SErr` wrapper constructor.
-/

/-- Opaque indexed attestation. -/
abbrev Att := Nat

/-- Opaque `ethpb.AttesterSlashing`. -/
abbrev Slashing := Nat

/-- Opaque 32-byte protobuf hash value. -/
abbrev PHash := Nat

/-- Errors of the detection pipeline, with one wrapper per `errors.Wrap`
site in `DetectAttesterSlashings`. -/
inductive SErr where
  | base : Nat → SErr
  | wrapDouble : SErr → SErr
  | wrapSurround : SErr → SErr
  | wrapHash : SErr → SErr
deriving DecidableEq, Repr

/-- The `types.DetectionResult` kinds switched on by the detection loop. -/
inductive VoteKind where
  | doubleVote : VoteKind
  | surroundVote : VoteKind
deriving DecidableEq, Repr

/-- A detection result: its kind plus an opaque payload standing for the
slashable epoch, signature bytes and validator index. -/
structure DetectionResult where
  kind : VoteKind
  payload : Nat
deriving DecidableEq, Repr

/-- Opaque collaborators of the detection service. -/
structure SlashCollab where
  detectSlashingsForAttestation : Att → Except SErr (List DetectionResult)
  detectDoubleVote : Att → DetectionResult → Except SErr (Option Slashing)
  detectSurroundVotes : Att → DetectionResult → Except SErr (Option Slashing)
  hashProto : Slashing → Except SErr PHash
  saveAttesterSlashings : List Slashing → Except SErr Unit

/-- The per-result loop of `DetectAttesterSlashings`: dispatch each result
to the matching detector, stop at the first error, and append every
non-nil slashing in order. -/
def detectPerResult (c : SlashCollab) (att : Att) :
    List DetectionResult → Except SErr (List Slashing)
  | [] => .ok []
  | r :: rest =>
    let step : Except SErr (Option Slashing) :=
      match r.kind with
      | .doubleVote =>
        match c.detectDoubleVote att r with
        | .error e => .error (.wrapDouble e)
        | .ok o => .ok o
      | .surroundVote =>
        match c.detectSurroundVotes att r with
        | .error e => .error (.wrapSurround e)
        | .ok o => .ok o
    match step with
    | .error e => .error e
    | .ok o =>
      match detectPerResult c att rest with
      | .error e => .error e
      | .ok tail =>
        .ok (match o with
             | some sl => sl :: tail
             | none => tail)

/-- The duplicate-clearing loop of `DetectAttesterSlashings`: hash each
slashing, keep it only when its hash was not seen before, recording seen
hashes in `keys`. -/
def dedupLoop (hp : Slashing → Except SErr PHash) (keys : List PHash) :
    List Slashing → Except SErr (List Slashing)
  | [] => .ok []
  | sl :: rest =>
    match hp sl with
    | .error e => .error (.wrapHash e)
    | .ok h =>
      if h ∈ keys then
        dedupLoop hp keys rest
      else
        match dedupLoop hp (h :: keys) rest with
        | .error e => .error e
        | .ok tail => .ok (sl :: tail)

/-- Embedding of `DetectAttesterSlashings` (`detect.go`): run the min-max
span detector, return the empty result when it reports nothing, run the
per-result detection loop, clear out duplicate results by protobuf hash,
save the (pre-deduplication) slashings, and return the deduplicated list. -/
def DetectAttesterSlashings (c : SlashCollab) (att : Att) :
    Except SErr (List Slashing) :=
  match c.detectSlashingsForAttestation att with
  | .error e => .error e
  | .ok results =>
    if results.length = 0 then .ok []
    else
      match detectPerResult c att results with
      | .error e => .error e
      | .ok slashings =>
        match dedupLoop c.hashProto [] slashings with
        | .error e => .error e
        | .ok slashingList =>
          match c.saveAttesterSlashings slashings with
          | .error e => .error e
          | .ok _ => .ok slashingList

/-!
Embedding of `RepeatHash` (`shared/hashutil/hash.go`).  The sha256
compression itself comes from an external library (`minio/sha256-simd`)
consumed opaquely, so the single-application hash is a parameter restricted
to 32-byte arrays, the only shape `RepeatHash` feeds it.
-/

/-- A byte. -/
abbrev Byte := Fin 256

/-- A 32-byte array. -/
abbrev Bytes32 := Fin 32 → Byte

/-- Embedding of `RepeatHash`: zero iterations return the data unchanged,
and `n+1` iterations recurse on the hashed data. -/
def RepeatHash (Hash : Bytes32 → Bytes32) : Bytes32 → Nat → Bytes32
  | data, 0 => data
  | data, Nat.succ m => RepeatHash Hash (Hash data) m

/-- A collaborator instance whose writes all succeed, whose block loader
returns no blocks and whose replay returns its start state; used to
instantiate witnesses. -/
def collabOK : Collab where
  saveStateOk := fun _ _ => true
  saveSummaryOk := fun _ => true
  loadBlocks := fun _ _ _ => .ok []
  replayBlocks := fun st _ _ => .ok st
  saveColdState := fun s _ _ => (.ok (), s)

/-- A collaborator instance whose block loader fails; used to instantiate
the error-frame witness. -/
def collabFailLoad : Collab :=
  { collabOK with loadBlocks := fun _ _ _ => .error (.collab 0) }

/-- A collaborator instance whose replay fails; used for error scenarios. -/
def collabFailReplay : Collab :=
  { collabOK with replayBlocks := fun _ _ _ => .error (.collab 1) }

/-- A detection collaborator that reports the same slashing for two
detection results, so the pre-deduplication list holds a duplicate. -/
def slashCollabDup : SlashCollab where
  detectSlashingsForAttestation := fun _ => .ok [⟨.doubleVote, 0⟩, ⟨.doubleVote, 1⟩]
  detectDoubleVote := fun _ _ => .ok (some 7)
  detectSurroundVotes := fun _ _ => .ok none
  hashProto := fun sl => .ok sl
  saveAttesterSlashings := fun _ => .ok ()

/-! Helper lemmas about the association-list primitives. -/

theorem alookup_ainsert_self {α : Type} (l : List (Root × α)) (k : Root) (v : α) :
    alookup (ainsert l k v) k = some v := by
  simp [alookup, ainsert]

theorem cacheHas_ainsert_self (l : List (Root × BeaconState)) (k : Root)
    (v : BeaconState) : cacheHas (ainsert l k v) k = true := by
  simp [cacheHas, alookup_ainsert_self]

/-- C10: `RepeatHash` is exactly the n-fold iteration of the single
application hash: zero iterations return the 32-byte array unchanged, and a
positive iteration count hashes once and recurses on the decremented
count. -/
theorem repeatHash_iterate (Hash : Bytes32 → Bytes32) (data : Bytes32) (n : Nat) :
    RepeatHash Hash data n = Hash^[n] data ∧
    RepeatHash Hash data 0 = data ∧
    (0 < n → RepeatHash Hash data n = RepeatHash Hash (Hash data) (n - 1)) := by
  refine ⟨?_, rfl, ?_⟩
  · induction n generalizing data with
    | zero => rfl
    | succ m ih =>
      rw [Function.iterate_succ_apply]
      exact ih (Hash data)
  · intro hn
    cases n with
    | zero => exact absurd hn (lt_irrefl 0)
    | succ m => rfl

/-- Witness for C10 at the identity hash, the zero array and one
iteration. -/
theorem repeatHash_iterate_witness :
    0 < 1 ∧
    RepeatHash id (fun _ => (0 : Byte)) 1 =
      RepeatHash id (id (fun _ => (0 : Byte))) (1 - 1) :=
  ⟨Nat.one_pos, (repeatHash_iterate id (fun _ => (0 : Byte)) 1).2.2 Nat.one_pos⟩

/-- C5: `SaveState` delegates to the cold-region save exactly when the
state's slot is strictly below the split slot, and to the hot-region save
otherwise, with no further effect of its own. -/
theorem saveState_routes (E : Nat) (c : Collab) (s : StateGen) (root : Root)
    (st : BeaconState) :
    (st.slot < s.splitSlot → SaveState E c s root st = c.saveColdState s root st) ∧
    (¬ st.slot < s.splitSlot → SaveState E c s root st = saveHotState E c s root st) := by
  constructor <;> intro h <;> simp [SaveState, h]

/-- Witness for C5: a slot below the split slot is routed to the cold save,
at a concrete split slot of 1 and state slot 0. -/
theorem saveState_routes_witness :
    (0 : Nat) < 1 ∧
    SaveState 2 collabOK ⟨[], [], [], [], 1⟩ 0 ⟨0, 0⟩ =
      collabOK.saveColdState ⟨[], [], [], [], 1⟩ 0 ⟨0, 0⟩ :=
  ⟨Nat.one_pos, (saveState_routes 2 collabOK ⟨[], [], [], [], 1⟩ 0 ⟨0, 0⟩).1 Nat.one_pos⟩

/-- C6: on a cache miss with no persisted state summary for the root,
`loadHotStateByRoot` fails with `errUnknownStateSummary`, returns no state
and leaves the service state untouched. -/
theorem loadHotStateByRoot_unknown_summary (E : Nat) (c : Collab) (s : StateGen)
    (root : Root)
    (hmiss : alookup s.hotStateCache root = none)
    (hsum : alookup s.dbSummaries root = none) :
    loadHotStateByRoot E c s root = (.error .unknownStateSummary, s) := by
  simp [loadHotStateByRoot, hmiss, hsum]

/-- Witness for C6 on the empty service state. -/
theorem loadHotStateByRoot_unknown_summary_witness :
    loadHotStateByRoot 2 collabOK ⟨[], [], [], [], 0⟩ 0 =
      (.error .unknownStateSummary, ⟨[], [], [], [], 0⟩) :=
  loadHotStateByRoot_unknown_summary 2 collabOK ⟨[], [], [], [], 0⟩ 0 rfl rfl

/-- A cached root makes `saveHotState` an immediate success with no state
change (helper shared by the idempotence development). -/
theorem saveHotState_cached_noop (E : Nat) (c : Collab) (s : StateGen)
    (blockRoot : Root) (st : BeaconState)
    (h : cacheHas s.hotStateCache blockRoot = true) :
    saveHotState E c s blockRoot st = (.ok (), s) := by
  simp [saveHotState, h]

/-- After a successful `saveHotState`, the root is present in the hot state
cache (helper for the idempotence development). -/
theorem cacheHas_after_saveHotState (E : Nat) (c : Collab) (s : StateGen)
    (blockRoot : Root) (st : BeaconState)
    (hok : (saveHotState E c s blockRoot st).1 = .ok ()) :
    cacheHas (saveHotState E c s blockRoot st).2.hotStateCache blockRoot = true := by
  by_cases h1 : cacheHas s.hotStateCache blockRoot
  · simp [saveHotState, h1]
  · by_cases h2 : isEpochStart E st.slot && !(c.saveStateOk blockRoot st)
    · simp [saveHotState, h1, h2] at hok
    · by_cases h3 : c.saveSummaryOk ⟨st.slot, blockRoot⟩
      · simp [saveHotState, h1, h2, h3, putCache, cacheHas_ainsert_self]
      · simp [saveHotState, h1, h2, h3] at hok

/-- C3: duplicate saves are a no-op.  A root already present in the hot
state cache makes `saveHotState` return success immediately with no change
to cache or store, and after any successful save a second save with the same
root succeeds and changes nothing. -/
theorem saveHotState_idempotent (E : Nat) (c : Collab) (s : StateGen)
    (blockRoot : Root) (st : BeaconState) :
    (cacheHas s.hotStateCache blockRoot = true →
      saveHotState E c s blockRoot st = (.ok (), s)) ∧
    ((saveHotState E c s blockRoot st).1 = .ok () →
      saveHotState E c (saveHotState E c s blockRoot st).2 blockRoot st =
        (.ok (), (saveHotState E c s blockRoot st).2)) := by
  refine ⟨fun h => saveHotState_cached_noop E c s blockRoot st h, fun hok => ?_⟩
  exact saveHotState_cached_noop E c _ blockRoot st
    (cacheHas_after_saveHotState E c s blockRoot st hok)

/-- Witness for C3: on the empty service state the first save succeeds and
the immediate second save with the same root returns success unchanged. -/
theorem saveHotState_idempotent_witness :
    (saveHotState 2 collabOK ⟨[], [], [], [], 0⟩ 0 ⟨1, 1⟩).1 = .ok () ∧
    saveHotState 2 collabOK (saveHotState 2 collabOK ⟨[], [], [], [], 0⟩ 0 ⟨1, 1⟩).2 0 ⟨1, 1⟩ =
      (.ok (), (saveHotState 2 collabOK ⟨[], [], [], [], 0⟩ 0 ⟨1, 1⟩).2) :=
  ⟨rfl, (saveHotState_idempotent 2 collabOK ⟨[], [], [], [], 0⟩ 0 ⟨1, 1⟩).2 rfl⟩

/-- C1: on a successful non-cached save, the full state is persisted exactly
when the slot is an epoch-boundary slot (and the store of full states is
untouched otherwise), while the checkpoint pointer `{slot, root}` is
persisted unconditionally. -/
theorem saveHotState_boundary (E : Nat) (c : Collab) (s : StateGen)
    (blockRoot : Root) (st : BeaconState)
    (hmiss : cacheHas s.hotStateCache blockRoot = false)
    (hok : (saveHotState E c s blockRoot st).1 = .ok ()) :
    (isEpochStart E st.slot = true →
      (saveHotState E c s blockRoot st).2.dbStates = ainsert s.dbStates blockRoot st ∧
      alookup (saveHotState E c s blockRoot st).2.dbStates blockRoot = some st) ∧
    (isEpochStart E st.slot = false →
      (saveHotState E c s blockRoot st).2.dbStates = s.dbStates) ∧
    alookup (saveHotState E c s blockRoot st).2.dbSummaries blockRoot =
      some ⟨st.slot, blockRoot⟩ := by
  by_cases hb : isEpochStart E st.slot
  · by_cases hw : c.saveStateOk blockRoot st
    · by_cases hs : c.saveSummaryOk ⟨st.slot, blockRoot⟩
      · simp [saveHotState, hmiss, hb, hw, hs, putCache, alookup_ainsert_self]
      · simp [saveHotState, hmiss, hb, hw, hs] at hok
    · simp [saveHotState, hmiss, hb, hw] at hok
  · by_cases hs : c.saveSummaryOk ⟨st.slot, blockRoot⟩
    · simp [saveHotState, hmiss, hb, hs, putCache, alookup_ainsert_self]
    · simp [saveHotState, hmiss, hb, hs] at hok

/-- Witness for C1: an uncached save of an epoch-boundary state (slot 4,
epoch length 2) persists both the full state and the pointer. -/
theorem saveHotState_boundary_witness :
    cacheHas (⟨[], [], [], [], 0⟩ : StateGen).hotStateCache 0 = false ∧
    (saveHotState 2 collabOK ⟨[], [], [], [], 0⟩ 0 ⟨4, 0⟩).1 = .ok () ∧
    alookup (saveHotState 2 collabOK ⟨[], [], [], [], 0⟩ 0 ⟨4, 0⟩).2.dbSummaries 0 =
      some ⟨4, 0⟩ ∧
    alookup (saveHotState 2 collabOK ⟨[], [], [], [], 0⟩ 0 ⟨4, 0⟩).2.dbStates 0 =
      some ⟨4, 0⟩ :=
  ⟨rfl, rfl,
    (saveHotState_boundary 2 collabOK ⟨[], [], [], [], 0⟩ 0 ⟨4, 0⟩ rfl rfl).2.2,
    ((saveHotState_boundary 2 collabOK ⟨[], [], [], [], 0⟩ 0 ⟨4, 0⟩ rfl rfl).1 rfl).2⟩

/-- C2: on a cache miss with a persisted pointer `{ps, root}` and a located
ancestor boundary snapshot `b`, `loadHotStateByRoot` returns `b` itself with
no replay (for every collaborator) when the boundary slot equals the
pointer's slot, and otherwise returns exactly the replay, onto `b` and up to
the pointer's slot, of the loaded block sequence from the boundary slot plus
one through the pointer's slot ending at the given root. -/
theorem loadHotStateByRoot_ancestor (E : Nat) (s : StateGen) (root : Root)
    (ps : Nat) (b : BeaconState)
    (hmiss : alookup s.hotStateCache root = none)
    (hsum : alookup s.dbSummaries root = some ⟨ps, root⟩)
    (hboundary : lastSavedState s.dbStates (startSlot E (slotToEpoch E ps)) = some b) :
    (ps = b.slot → ∀ c : Collab,
      loadHotStateByRoot E c s root = (.ok b, putCache s root b)) ∧
    (ps ≠ b.slot → ∀ (c : Collab) (blks : List Blk) (hst : BeaconState),
      c.loadBlocks (b.slot + 1) ps root = .ok blks →
      c.replayBlocks b blks ps = .ok hst →
      loadHotStateByRoot E c s root = (.ok hst, putCache s root hst)) := by
  constructor
  · intro heq c
    subst heq
    simp [loadHotStateByRoot, hmiss, hsum, hboundary]
  · intro hne c blks hst hload hreplay
    simp [loadHotStateByRoot, hmiss, hsum, hboundary, hne, hload, hreplay]

/-- Witness for C2: pointer slot 2 equals the boundary snapshot slot, so the
snapshot is returned directly and cached, for the concrete collaborator. -/
theorem loadHotStateByRoot_ancestor_witness :
    loadHotStateByRoot 2 collabOK ⟨[], [(0, ⟨2, 5⟩)], [(1, ⟨2, 1⟩)], [], 0⟩ 1 =
      (.ok ⟨2, 5⟩, putCache ⟨[], [(0, ⟨2, 5⟩)], [(1, ⟨2, 1⟩)], [], 0⟩ 1 ⟨2, 5⟩) :=
  (loadHotStateByRoot_ancestor 2 ⟨[], [(0, ⟨2, 5⟩)], [(1, ⟨2, 1⟩)], [], 0⟩ 1 2 ⟨2, 5⟩
    rfl rfl rfl).1 rfl collabOK

/-- C7: if block loading fails, or block loading succeeds and replay fails,
`loadHotStateByRoot` returns the wrapped error and the service state —
in particular the hot state cache — is exactly as before the call. -/
theorem loadHotStateByRoot_error_frame (E : Nat) (c : Collab) (s : StateGen)
    (root : Root) (ps : Nat) (proot : Root) (b : BeaconState)
    (hmiss : alookup s.hotStateCache root = none)
    (hsum : alookup s.dbSummaries root = some ⟨ps, proot⟩)
    (hboundary : lastSavedState s.dbStates (startSlot E (slotToEpoch E ps)) = some b)
    (hne : ps ≠ b.slot) :
    (∀ e, c.loadBlocks (b.slot + 1) ps proot = .error e →
      loadHotStateByRoot E c s root = (.error (.wrapped e), s)) ∧
    (∀ blks e, c.loadBlocks (b.slot + 1) ps proot = .ok blks →
      c.replayBlocks b blks ps = .error e →
      loadHotStateByRoot E c s root = (.error (.wrapped e), s)) := by
  constructor
  · intro e hload
    simp [loadHotStateByRoot, hmiss, hsum, hboundary, hne, hload]
  · intro blks e hload hreplay
    simp [loadHotStateByRoot, hmiss, hsum, hboundary, hne, hload, hreplay]

/-- Witness for C7: a failing block loader surfaces a wrapped error and the
service state is returned unchanged. -/
theorem loadHotStateByRoot_error_frame_witness :
    loadHotStateByRoot 2 collabFailLoad ⟨[], [(0, ⟨2, 5⟩)], [(1, ⟨3, 1⟩)], [], 0⟩ 1 =
      (.error (.wrapped (.collab 0)), ⟨[], [(0, ⟨2, 5⟩)], [(1, ⟨3, 1⟩)], [], 0⟩) :=
  (loadHotStateByRoot_error_frame 2 collabFailLoad
    ⟨[], [(0, ⟨2, 5⟩)], [(1, ⟨3, 1⟩)], [], 0⟩ 1 3 1 ⟨2, 5⟩ rfl rfl rfl
    (by decide)).1 (.collab 0) rfl

/-- C4: at a slot with no persisted boundary snapshot at or below it (but
with a saved block, so the checked lookup passes), `loadHotStateBySlot` does
not surface the ancestor-lookup failure as an error: the source discards the
error from `lastSavedState`, and the nil start state is dereferenced at
`startState.Slot()` — a runtime panic rather than the NoValidAncestor-style
`errUnknownBoundaryState` failure the design prescribes. -/
theorem loadHotStateBySlot_swallows_ancestor_failure :
    loadHotStateBySlot collabOK ⟨[], [], [], [(0, 3)], 0⟩ 5 =
      .error .nilPointerPanic ∧
    GenErr.nilPointerPanic ≠ GenErr.unknownBoundaryState := by
  exact ⟨rfl, by decide⟩

/-- C8: the cache entry written by `saveHotState` aliases the caller's
snapshot.  At a concrete input, immediately after the save the cached entry
reads back the saved content, and a subsequent in-place mutation of the
caller's object (heap address 0) changes what the cache entry for the root
reads back — so no copy was inserted, contrary to the code's own comment. -/
theorem saveHotState_cache_aliases_caller :
    cacheDeref (saveHotStateRef 2 collabOK ⟨[(0, ⟨5, 7⟩)], [], [], []⟩ 1 0).2 1 =
      some ⟨5, 7⟩ ∧
    cacheDeref
      (heapWrite (saveHotStateRef 2 collabOK ⟨[(0, ⟨5, 7⟩)], [], [], []⟩ 1 0).2 0 ⟨5, 9⟩)
      1 = some ⟨5, 9⟩ := by
  exact ⟨rfl, rfl⟩

/-- Every element kept by the duplicate-clearing loop hashes successfully to
a value outside the already-seen `keys`, and the kept elements are pairwise
distinct under the protobuf hash (helper for the deduplication theorem). -/
theorem dedupLoop_ok_pairwise (hp : Slashing → Except SErr PHash) :
    ∀ (keys : List PHash) (ss l : List Slashing),
      dedupLoop hp keys ss = .ok l →
      (∀ a ∈ l, ∃ h, hp a = .ok h ∧ h ∉ keys) ∧
      l.Pairwise (fun a b => hp a ≠ hp b) := by
  intro keys ss
  induction ss generalizing keys with
  | nil =>
    intro l hl
    simp only [dedupLoop] at hl
    cases hl
    simp
  | cons sl rest ih =>
    intro l hl
    simp only [dedupLoop] at hl
    cases hhp : hp sl with
    | error e => rw [hhp] at hl; cases hl
    | ok h =>
      simp only [hhp] at hl
      by_cases hmem : h ∈ keys
      · rw [if_pos hmem] at hl
        exact ih keys l hl
      · rw [if_neg hmem] at hl
        cases htl : dedupLoop hp (h :: keys) rest with
        | error e => rw [htl] at hl; cases hl
        | ok tail =>
          rw [htl] at hl
          cases hl
          obtain ⟨htmem, htpw⟩ := ih (h :: keys) tail htl
          refine ⟨?_, ?_⟩
          · intro a ha
            rcases List.mem_cons.mp ha with rfl | hatail
            · exact ⟨h, hhp, hmem⟩
            · obtain ⟨h2, hh2, hh2mem⟩ := htmem a hatail
              exact ⟨h2, hh2, fun hk => hh2mem (List.mem_cons_of_mem h hk)⟩
          · refine List.Pairwise.cons ?_ htpw
            intro a hatail
            obtain ⟨h2, hh2, hh2mem⟩ := htmem a hatail
            rw [hhp, hh2]
            intro hcontra
            apply hh2mem
            have : h = h2 := by
              injection hcontra
            rw [this] at hh2mem ⊢
            exact List.mem_cons_self h2 keys

/-- C9: every successful `DetectAttesterSlashings` call returns a
duplicate-free slice — no two returned slashings have equal protobuf
hashes — even when the per-result detection produced the same slashing more
than once. -/
theorem detectAttesterSlashings_dedup (c : SlashCollab) (att : Att)
    (l : List Slashing)
    (hok : DetectAttesterSlashings c att = .ok l) :
    l.Pairwise (fun a b => c.hashProto a ≠ c.hashProto b) := by
  unfold DetectAttesterSlashings at hok
  cases hres : c.detectSlashingsForAttestation att with
  | error e => rw [hres] at hok; cases hok
  | ok results =>
    simp only [hres] at hok
    by_cases hlen : results.length = 0
    · rw [if_pos hlen] at hok
      cases hok
      simp
    · rw [if_neg hlen] at hok
      cases hper : detectPerResult c att results with
      | error e => rw [hper] at hok; cases hok
      | ok slashings =>
        simp only [hper] at hok
        cases hded : dedupLoop c.hashProto [] slashings with
        | error e => simp only [hded] at hok; cases hok
        | ok slashingList =>
          simp only [hded] at hok
          cases hsave : c.saveAttesterSlashings slashings with
          | error e => simp only [hsave] at hok; cases hok
          | ok u =>
            simp only [hsave] at hok
            cases hok
            exact (dedupLoop_ok_pairwise c.hashProto [] slashings l hded).2

/-- Witness for C9: a detector that reports the same slashing twice still
yields a singleton, hash-distinct result list. -/
theorem detectAttesterSlashings_dedup_witness :
    DetectAttesterSlashings slashCollabDup 0 = .ok [7] ∧
    List.Pairwise (fun a b => slashCollabDup.hashProto a ≠ slashCollabDup.hashProto b)
      [7] :=
  ⟨rfl, detectAttesterSlashings_dedup slashCollabDup 0 [7] rfl⟩
